import Mathlib

-- The Batteries rational-number operations are marked irreducible, which
-- blocks `decide` from evaluating concrete runs of the model; restore the
-- default reducibility for them in this file.
set_option allowUnsafeReducibility true
attribute [local semireducible] Rat.add Rat.sub Rat.mul Rat.div Rat.inv Rat.neg

/-!
Shallow embedding of `stonkAlerts.py`, a single-run batch job that checks a
list of stock tickers for a sustained price drop and sends one chat
notification.

Modelling conventions:
* Closing prices and the drop threshold are exact rationals (`ℚ`); the Python
  floats are idealised as exact arithmetic.
* The external collaborators (configuration file, logging setup, the market
  data provider `yfinance`, the HTTP transport used by `requests.post`, and
  the `yfinance.Ticker("SPY")` liveness probe) are oracles packaged in an
  `Env` record.  `Except.error ()` means the corresponding call raised an
  exception; `Except.ok v` means it returned `v`.
* Network-facing actions are recorded as an `Event` trace so that temporal
  claims ("no network activity happens after ...") are statable.
* An exception that the Python code does not catch is modelled as an
  `Except.error` result that propagates to the caller.
-/

namespace StonkAlerts

/-- `OK = 200` (source line 18): the HTTP success status code. -/
def OK : Nat := 200

/-- `TODAY = -1` (source line 19): the Python index of the most recent
closing price. -/
def TODAY : Int := -1

/-- Python sequence indexing `l[i]`, including the negative-index convention:
`l[i]` for `i < 0` means `l[len(l) + i]`, and an out-of-range index raises
`IndexError`, modelled as `none`.  This is the behaviour of the positional
indexing used on `history.Close` (source lines 100, 102, 107). -/
def pyIndex (l : List ℚ) (i : Int) : Option ℚ :=
  if 0 ≤ i then l.get? i.toNat
  else if (-i).toNat ≤ l.length then l.get? (l.length - (-i).toNat) else none

/-- The `maxPrice` loop of source lines 106-110: start from `0` and replace
the running value by every strictly larger closing price. -/
def maxLoop (close : List ℚ) : ℚ :=
  close.foldl (fun maxPrice price => if maxPrice < price then price else maxPrice) 0

/-- Python's `round(x, 0)`-style rounding of a rational to the nearest
integer, ties going to the even neighbour (banker's rounding), which is the
rounding mode of Python's built-in `round`. -/
def roundHalfEven (x : ℚ) : ℤ :=
  let f := Rat.floor x
  let r := x - (f : ℚ)
  if r < 1/2 then f
  else if 1/2 < r then f + 1
  else if f % 2 = 0 then f else f + 1

/-- Rendering of the integer `k` understood as the value `k/100`, the way
CPython prints a float that carries at most two decimal places: at least one
fractional digit, and no trailing zero in the second place (`2000 ↦ "20.0"`,
`2025 ↦ "20.25"`, `2005 ↦ "20.05"`). -/
def formatHundredths (k : ℤ) : String :=
  let sign := if k < 0 then "-" else ""
  let n := k.natAbs
  let whole := n / 100
  let frac := n % 100
  let fracDigits :=
    if frac % 10 = 0 then toString (frac / 10)
    else if frac < 10 then "0" ++ toString frac
    else toString frac
  sign ++ toString whole ++ "." ++ fracDigits

/-- `"{0}".format(round(x, 2))` for a rational `x`: round to two decimal
places with banker's rounding (source line 119) and render the result. -/
def formatRound2 (x : ℚ) : String :=
  formatHundredths (roundHalfEven (x * 100))

/-- The network-facing actions the script can attempt, in order. -/
inductive Event where
  /-- `yfinance.Ticker(ticker).history(...)` (source line 93). -/
  | fetchHistory (ticker : String)
  /-- `requests.post(uri, data=body)` (source line 47). -/
  | post
  /-- the `yfinance.Ticker("SPY")` liveness probe (source line 169). -/
  | probe
deriving DecidableEq, Repr

/-- Python exceptions that escape `main` uncaught. -/
inductive PyExc where
  /-- raised by `assert` (source lines 100/150 context: the config invariant). -/
  | assertionError
  /-- raised by an out-of-range sequence index (source line 100). -/
  | indexError
deriving DecidableEq, Repr

instance {ε α : Type} [DecidableEq ε] [DecidableEq α] : DecidableEq (Except ε α) := fun x y =>
  match x, y with
  | .ok a, .ok b => decidable_of_iff (a = b) (by simp)
  | .ok _, .error _ => .isFalse (by simp)
  | .error _, .ok _ => .isFalse (by simp)
  | .error a, .error b => decidable_of_iff (a = b) (by simp)

/-- One iteration of the ticker loop of `create_ticker_message`
(source lines 86-119).  `fetchClose days ticker` is the oracle for
`yfinance.Ticker(ticker).history(start=now - days)`, returning the `Close`
column (oldest to newest) or raising.  The result is the event trace of the
iteration together with either the string this iteration appends to the
message (`.ok`, the empty string when the ticker is skipped) or the uncaught
exception that aborts the whole call (`.error`): the indexing on source
line 100 happens outside the `try`/`except`. -/
def processTicker (fetchClose : Nat → String → Except Unit (List ℚ))
    (recentPeak recentTrend : Nat) (precentDroppedThreshold : ℚ)
    (ticker : String) : List Event × Except PyExc String :=
  match fetchClose recentPeak ticker with
  | .error _ => ([Event.fetchHistory ticker], .ok "")
  | .ok close =>
    match pyIndex close (-(recentTrend : Int)), pyIndex close TODAY with
    | some trendAgo, some today =>
      if trendAgo < today then ([Event.fetchHistory ticker], .ok "")
      else
        let priceToday := today
        let maxPrice := maxLoop close
        let percentDropped := (priceToday - maxPrice) / maxPrice * 100
        if percentDropped < -precentDroppedThreshold then
          ([Event.fetchHistory ticker],
           .ok (ticker ++ " dropped " ++ formatRound2 (-percentDropped) ++ "%\n"))
        else ([Event.fetchHistory ticker], .ok "")
    | _, _ => ([Event.fetchHistory ticker], .error PyExc.indexError)

/-- The ticker loop of `create_ticker_message`, threading the accumulated
`message` exactly as the source does (`message += ...`, source lines 85-121).
An uncaught exception in one iteration aborts the loop. -/
def create_ticker_message_go (fetchClose : Nat → String → Except Unit (List ℚ))
    (recentPeak recentTrend : Nat) (precentDroppedThreshold : ℚ) :
    List String → String → List Event × Except PyExc String
  | [], message => ([], .ok message)
  | ticker :: rest, message =>
    let step := processTicker fetchClose recentPeak recentTrend precentDroppedThreshold ticker
    match step.2 with
    | .error e => (step.1, .error e)
    | .ok s =>
      let next := create_ticker_message_go fetchClose recentPeak recentTrend
        precentDroppedThreshold rest (message ++ s)
      (step.1 ++ next.1, next.2)

/-- `create_ticker_message` (source lines 57-121): iterate over the tickers,
starting from the empty message. -/
def create_ticker_message (fetchClose : Nat → String → Except Unit (List ℚ))
    (tickers : List String) (recentPeak recentTrend : Nat)
    (precentDroppedThreshold : ℚ) : List Event × Except PyExc String :=
  create_ticker_message_go fetchClose recentPeak recentTrend
    precentDroppedThreshold tickers ""

/-- `send_message` (source lines 25-54).  `transport` is the oracle for
`requests.post`: `.ok code` is a response with HTTP status `code`, `.error ()`
means the call raised.  The POST is attempted unconditionally (one `.post`
event) and the result is `True` exactly when the status is `OK`; an exception
is swallowed into `False`. -/
def send_message (transport : Except Unit Nat)
    (botID chatID message : String) : List Event × Bool :=
  ([Event.post],
   match transport with
   | .ok code => if code = OK then true else false
   | .error _ => false)

/-- The configuration record read from `config.json` (source lines 132-154). -/
structure Config where
  tickers : List String
  recentPeak : Nat
  recentTrend : Nat
  percentDropped : ℚ
  telegramBotId : String
  telegramChatId : String
  loggingEnabled : Bool
  logFileName : String
deriving DecidableEq, Repr

/-- The run environment: all external collaborators of one run, as oracles. -/
structure Env where
  /-- `open("config.json")` + `json.load` (source lines 132-134). -/
  configLoad : Except Unit Config
  /-- `logging.basicConfig` + logger setup (source lines 141-144);
  consulted only when `loggingEnabled` is true. -/
  loggingSetup : Except Unit Unit
  /-- per-ticker history fetch: `fetchClose days ticker` is the `Close`
  column for the last `days` days, or a raised exception. -/
  fetchClose : Nat → String → Except Unit (List ℚ)
  /-- the HTTP transport behind `requests.post` (source line 47). -/
  transport : Except Unit Nat
  /-- the `yfinance.Ticker("SPY")` liveness probe (source line 169):
  `.ok ()` if it yields a truthy object, `.error ()` if it raises. -/
  probe : Except Unit Unit

/-- `main` (source lines 124-177): returns the event trace and either the
`int` return value of `main` or the uncaught exception escaping it (the
`assert` on source line 150 and the indexing on line 100 are not inside any
`try`). -/
def main (env : Env) : List Event × Except PyExc Int :=
  match env.configLoad with
  | .error _ => ([], .ok (-1))
  | .ok config =>
    match (if config.loggingEnabled then env.loggingSetup else .ok ()) with
    | .error _ => ([], .ok (-1))
    | .ok _ =>
      if config.recentPeak < config.recentTrend then
        ([], .error PyExc.assertionError)
      else
        let detect := create_ticker_message env.fetchClose config.tickers
          config.recentPeak config.recentTrend config.percentDropped
        match detect.2 with
        | .error e => (detect.1, .error e)
        | .ok message =>
          if message ≠ "" then
            let send := send_message env.transport config.telegramBotId
              config.telegramChatId message
            (detect.1 ++ send.1, .ok (if send.2 then 0 else -1))
          else
            match env.probe with
            | .ok _ => (detect.1 ++ [Event.probe], .ok 0)
            | .error _ =>
              let send := send_message env.transport config.telegramBotId
                config.telegramChatId "Failed to reach Yahoo Finance API."
              (detect.1 ++ [Event.probe] ++ send.1, .ok (-1))

/-- The top level of the script (source line 179) calls `main()` as a plain
expression statement and discards its return value; the interpreter then
exits with status 0, while an uncaught exception makes it exit with
status 1. -/
def scriptExitCode (env : Env) : Int :=
  match (main env).2 with
  | .ok _ => 0
  | .error _ => 1

/-- Concatenation of a list of strings in order, used to state the shape of
the detector's output. -/
def concatAll (l : List String) : String :=
  l.foldr (· ++ ·) ""

/-! ## Concrete test fixtures -/

/-- A configuration whose single ticker will be fetched with a one-entry
history while `recentTrend = 2`. -/
def cfgShortHistory : Config where
  tickers := ["TICKER"]
  recentPeak := 7
  recentTrend := 2
  percentDropped := 10
  telegramBotId := "b"
  telegramChatId := "c"
  loggingEnabled := false
  logFileName := ""

/-- Environment delivering a one-entry history for every ticker. -/
def envShortHistory : Env where
  configLoad := .ok cfgShortHistory
  loggingSetup := .ok ()
  fetchClose := fun _ _ => .ok [100]
  transport := .ok 200
  probe := .ok ()

/-- Environment whose configuration file cannot be loaded. -/
def envLoadFail : Env where
  configLoad := .error ()
  loggingSetup := .ok ()
  fetchClose := fun _ _ => .error ()
  transport := .error ()
  probe := .ok ()

/-- A configuration violating the `recentPeak ≥ recentTrend` invariant. -/
def cfgInvariant : Config where
  tickers := ["A"]
  recentPeak := 1
  recentTrend := 2
  percentDropped := 10
  telegramBotId := "b"
  telegramChatId := "c"
  loggingEnabled := true
  logFileName := "log"

/-- Environment loading the invariant-violating configuration, with every
other collaborator healthy. -/
def envInvariant : Env where
  configLoad := .ok cfgInvariant
  loggingSetup := .ok ()
  fetchClose := fun _ _ => .ok [100]
  transport := .ok 200
  probe := .ok ()

/-- A valid configuration with an empty ticker list (the detector will
return the empty message). -/
def cfgNoTickers : Config where
  tickers := []
  recentPeak := 5
  recentTrend := 2
  percentDropped := 10
  telegramBotId := "b"
  telegramChatId := "c"
  loggingEnabled := false
  logFileName := ""

/-- Empty detector message and a failing liveness probe. -/
def envProbeFail : Env where
  configLoad := .ok cfgNoTickers
  loggingSetup := .ok ()
  fetchClose := fun _ _ => .error ()
  transport := .ok 200
  probe := .error ()

/-- Empty detector message and a successful liveness probe. -/
def envProbeOk : Env where
  configLoad := .ok cfgNoTickers
  loggingSetup := .ok ()
  fetchClose := fun _ _ => .error ()
  transport := .ok 200
  probe := .ok ()

/-! ## Helper lemmas -/

/-- A successful Python index lookup returns an element of the list. -/
theorem pyIndex_mem {l : List ℚ} {i : Int} {x : ℚ} (h : pyIndex l i = some x) :
    x ∈ l := by
  unfold pyIndex at h
  split at h
  · exact List.get?_mem h
  · split at h
    · exact List.get?_mem h
    · simp at h

/-- On a non-empty list, Python's `l[-1]` is the last element. -/
theorem pyIndex_neg_one (l : List ℚ) (h : l ≠ []) :
    pyIndex l (-1) = some (l.getLast h) := by
  have hlen : 1 ≤ l.length := List.length_pos.mpr h
  unfold pyIndex
  rw [if_neg (by norm_num), if_pos (by simpa using hlen)]
  rw [List.getLast_eq_get]
  exact List.get?_eq_get (by omega)

/-- The `maxPrice` fold never goes below its starting value. -/
theorem foldl_step_ge (l : List ℚ) :
    ∀ a : ℚ, a ≤ l.foldl (fun m p => if m < p then p else m) a := by
  induction l with
  | nil => intro a; exact le_refl a
  | cons q t ih =>
    intro a
    simp only [List.foldl_cons]
    have h1 : a ≤ (if a < q then q else a) := by
      by_cases h : a < q
      · rw [if_pos h]; exact le_of_lt h
      · rw [if_neg h]
    exact le_trans h1 (ih _)

/-- The `maxPrice` fold dominates every element of the list. -/
theorem foldl_step_le_of_mem (l : List ℚ) :
    ∀ (a p : ℚ), p ∈ l → p ≤ l.foldl (fun m p => if m < p then p else m) a := by
  induction l with
  | nil => intro a p hp; cases hp
  | cons q t ih =>
    intro a p hp
    simp only [List.foldl_cons]
    rcases List.mem_cons.mp hp with rfl | hp'
    · refine le_trans ?_ (foldl_step_ge t _)
      by_cases h : a < p
      · rw [if_pos h]
      · rw [if_neg h]; exact le_of_not_lt h
    · exact ih _ p hp'

/-- The `maxPrice` fold returns its starting value or an element of the list. -/
theorem foldl_step_eq_or_mem (l : List ℚ) :
    ∀ a : ℚ, l.foldl (fun m p => if m < p then p else m) a = a ∨
      l.foldl (fun m p => if m < p then p else m) a ∈ l := by
  induction l with
  | nil => intro a; exact Or.inl rfl
  | cons q t ih =>
    intro a
    simp only [List.foldl_cons]
    rcases ih (if a < q then q else a) with h | h
    · rw [h]
      by_cases hq : a < q
      · right; rw [if_pos hq]; exact List.mem_cons_self q t
      · left; rw [if_neg hq]
    · right; exact List.mem_cons_of_mem _ h

/-- `maxLoop` dominates every closing price. -/
theorem maxLoop_le (close : List ℚ) : ∀ p ∈ close, p ≤ maxLoop close :=
  fun p hp => foldl_step_le_of_mem close 0 p hp

/-- `maxLoop` is an element of the list or the initial `0`. -/
theorem maxLoop_mem_or_zero (close : List ℚ) :
    maxLoop close ∈ close ∨ maxLoop close = 0 := by
  rcases foldl_step_eq_or_mem close 0 with h | h
  · exact Or.inr h
  · exact Or.inl h

/-- The loop body of `create_ticker_message` with the accumulated message
made explicit: running the loop from `acc` produces `acc ++` whatever it
produces from the empty message (or the same uncaught exception). -/
theorem create_ticker_message_go_acc (fetchClose : Nat → String → Except Unit (List ℚ))
    (recentPeak recentTrend : Nat) (th : ℚ) (l : List String) :
    ∀ acc : String,
      (create_ticker_message_go fetchClose recentPeak recentTrend th l acc).2 =
        match (create_ticker_message_go fetchClose recentPeak recentTrend th l "").2 with
        | .error e => .error e
        | .ok s => .ok (acc ++ s) := by
  induction l with
  | nil =>
    intro acc
    simp [create_ticker_message_go]
  | cons ticker rest ih =>
    intro acc
    simp only [create_ticker_message_go]
    cases hstep : (processTicker fetchClose recentPeak recentTrend th ticker).2 with
    | error e => simp
    | ok s =>
      simp only []
      rw [ih (acc ++ s), ih ("" ++ s)]
      cases (create_ticker_message_go fetchClose recentPeak recentTrend th rest "").2 with
      | error e => simp
      | ok u => simp [String.append_assoc, String.empty_append]

/-- Removing from the ticker list one ticker whose iteration contributes
nothing does not change the message the loop returns. -/
theorem create_ticker_message_go_skip (fetchClose : Nat → String → Except Unit (List ℚ))
    (recentPeak recentTrend : Nat) (th : ℚ) (ticker : String)
    (hskip : (processTicker fetchClose recentPeak recentTrend th ticker).2 = .ok "")
    (post : List String) :
    ∀ (pre : List String) (acc : String),
      (create_ticker_message_go fetchClose recentPeak recentTrend th
          (pre ++ ticker :: post) acc).2 =
        (create_ticker_message_go fetchClose recentPeak recentTrend th
          (pre ++ post) acc).2 := by
  intro pre
  induction pre with
  | nil =>
    intro acc
    simp only [List.nil_append, create_ticker_message_go, hskip, String.append_empty]
  | cons p pre ih =>
    intro acc
    simp only [List.cons_append, create_ticker_message_go]
    cases hstep : (processTicker fetchClose recentPeak recentTrend th p).2 with
    | error e => rfl
    | ok s => exact ih (acc ++ s)

/-- When every iteration succeeds, the loop returns the concatenation of the
per-ticker contributions, in input order. -/
theorem create_ticker_message_go_concat (fetchClose : Nat → String → Except Unit (List ℚ))
    (recentPeak recentTrend : Nat) (th : ℚ) (c : String → String) :
    ∀ tickers : List String,
      (∀ t ∈ tickers, (processTicker fetchClose recentPeak recentTrend th t).2 = .ok (c t)) →
      (create_ticker_message_go fetchClose recentPeak recentTrend th tickers "").2 =
        .ok (concatAll (tickers.map c)) := by
  intro tickers
  induction tickers with
  | nil => intro _; rfl
  | cons t rest ih =>
    intro h
    have ht := h t (List.mem_cons_self t rest)
    have hrest := fun u hu => h u (List.mem_cons_of_mem t hu)
    simp only [create_ticker_message_go, ht]
    rw [create_ticker_message_go_acc fetchClose recentPeak recentTrend th rest ("" ++ c t),
      ih hrest]
    simp [concatAll, String.empty_append]

/-! ## Claims -/

/-- C1: for every ticker that passes the trend gate, the detector appends its
line exactly when `percentDropped < -thresholdPercent` (strict), and the line
is `"<TICKER> dropped <X>%\n"` with `X` the positive magnitude of the drop
rounded to two decimal places; in particular with `maxPrice = 100`,
`priceToday = 80` the line `"TICKER dropped 20.0%\n"` appears at threshold 15
and nothing appears at threshold 25. -/
theorem alert_condition_and_examples :
    (∀ (fetchClose : Nat → String → Except Unit (List ℚ)) (recentPeak recentTrend : Nat)
      (th : ℚ) (ticker : String) (close : List ℚ) (trendAgo today : ℚ),
      fetchClose recentPeak ticker = .ok close →
      pyIndex close (-(recentTrend : Int)) = some trendAgo →
      pyIndex close TODAY = some today →
      ¬ trendAgo < today →
      (processTicker fetchClose recentPeak recentTrend th ticker).2 =
        .ok (if (today - maxLoop close) / maxLoop close * 100 < -th then
              ticker ++ " dropped " ++
                formatRound2 (-((today - maxLoop close) / maxLoop close * 100)) ++ "%\n"
            else "")) ∧
    (create_ticker_message (fun _ _ => .ok [100, 80]) ["TICKER"] 7 1 15).2 =
      .ok "TICKER dropped 20.0%\n" ∧
    (create_ticker_message (fun _ _ => .ok [100, 80]) ["TICKER"] 7 1 25).2 = .ok "" := by
  refine ⟨?_, by decide, by decide⟩
  intro fetchClose recentPeak recentTrend th ticker close trendAgo today hfetch hts hto hgate
  simp only [processTicker, hfetch, hts, hto, if_neg hgate]
  split <;> rfl

/-- Witness for C1: the general alert-condition statement applied to the
history `[100, 90, 80]` with `recentTrend = 2` and threshold 5. -/
theorem alert_condition_and_examples_witness :
    (processTicker (fun _ _ => .ok [100, 90, 80]) 7 2 5 "T").2 =
      .ok (if ((80 : ℚ) - maxLoop [100, 90, 80]) / maxLoop [100, 90, 80] * 100 < -5 then
            "T" ++ " dropped " ++
              formatRound2 (-(((80 : ℚ) - maxLoop [100, 90, 80]) / maxLoop [100, 90, 80] * 100)) ++ "%\n"
          else "") :=
  alert_condition_and_examples.1 (fun _ _ => .ok [100, 90, 80]) 7 2 5 "T"
    [100, 90, 80] 90 80 rfl (by decide) (by decide) (by decide)

/-- C2: every ticker whose fetched history has
`priceTrendAgo < priceToday` is excluded from the returned message, whatever
its drawdown: the detector's message over any ticker list containing it
equals the message over the list with that ticker removed. -/
theorem trend_gate_excludes_ticker
    (fetchClose : Nat → String → Except Unit (List ℚ)) (pre post : List String)
    (ticker : String) (recentPeak recentTrend : Nat) (th : ℚ)
    (close : List ℚ) (trendAgo today : ℚ)
    (hfetch : fetchClose recentPeak ticker = .ok close)
    (hts : pyIndex close (-(recentTrend : Int)) = some trendAgo)
    (hto : pyIndex close TODAY = some today)
    (hgate : trendAgo < today) :
    (create_ticker_message fetchClose (pre ++ ticker :: post) recentPeak recentTrend th).2 =
      (create_ticker_message fetchClose (pre ++ post) recentPeak recentTrend th).2 := by
  have hskip : (processTicker fetchClose recentPeak recentTrend th ticker).2 = .ok "" := by
    simp only [processTicker, hfetch, hts, hto, if_pos hgate]
  exact create_ticker_message_go_skip fetchClose recentPeak recentTrend th ticker hskip
    post pre ""

/-- Witness for C2: ticker `"B"` with history `[80, 100]` (risen over the
2-day trend window) is dropped from the list `["A", "B", "C"]`, leaving the
message of `["A", "C"]`, even though its drawdown from the window maximum is
20%. -/
theorem trend_gate_excludes_ticker_witness :
    (create_ticker_message
        (fun _ t => if t = "B" then .ok [80, 100] else .error ()) ["A", "B", "C"] 5 2 10).2 =
      (create_ticker_message
        (fun _ t => if t = "B" then .ok [80, 100] else .error ()) ["A", "C"] 5 2 10).2 :=
  trend_gate_excludes_ticker (fun _ t => if t = "B" then .ok [80, 100] else .error ())
    ["A"] ["C"] "B" 5 2 10 [80, 100] 80 100 (by decide) (by decide) (by decide) (by decide)

/-- C3: for a history of positive closing prices whose last element (the
most recent close, `priceToday`) exists, the computed `maxPrice` is the
maximum closing price of the whole window (it is attained and dominates every
price), and `percentDropped = (priceToday - maxPrice) / maxPrice * 100` is
non-positive.  Positivity of the prices is the spec's standing data
assumption (zero or negative prices are "not expected and not specially
handled"); without it the `maxPrice` accumulator, initialised to `0`, would
not be the window maximum. -/
theorem maxPrice_is_window_maximum_and_drop_nonpositive
    (close : List ℚ) (today : ℚ)
    (htoday : pyIndex close TODAY = some today)
    (hpos : ∀ p ∈ close, 0 < p) :
    (maxLoop close ∈ close ∧ ∀ p ∈ close, p ≤ maxLoop close) ∧
      (today - maxLoop close) / maxLoop close * 100 ≤ 0 := by
  have hmem : today ∈ close := pyIndex_mem htoday
  have hle : ∀ p ∈ close, p ≤ maxLoop close := maxLoop_le close
  have hml : maxLoop close ∈ close := by
    rcases maxLoop_mem_or_zero close with h | h
    · exact h
    · exfalso
      have h1 := hle today hmem
      rw [h] at h1
      exact absurd (hpos today hmem) (not_lt.mpr h1)
  have hmlpos : 0 < maxLoop close := hpos _ hml
  refine ⟨⟨hml, hle⟩, ?_⟩
  have hsub : today - maxLoop close ≤ 0 := sub_nonpos.mpr (hle today hmem)
  have hdiv : (today - maxLoop close) / maxLoop close ≤ 0 :=
    div_nonpos_of_nonpos_of_nonneg hsub (le_of_lt hmlpos)
  exact mul_nonpos_iff.mpr (Or.inr ⟨hdiv, by norm_num⟩)

/-- Witness for C3: the history `[100, 80]` with `priceToday = 80`. -/
theorem maxPrice_is_window_maximum_and_drop_nonpositive_witness :
    (maxLoop [100, 80] ∈ ([100, 80] : List ℚ) ∧
      ∀ p ∈ ([100, 80] : List ℚ), p ≤ maxLoop [100, 80]) ∧
      ((80 : ℚ) - maxLoop [100, 80]) / maxLoop [100, 80] * 100 ≤ 0 :=
  maxPrice_is_window_maximum_and_drop_nonpositive [100, 80] 80 (by decide) (by decide)

/-- C4: a ticker whose history fetch raises contributes nothing (the caught
exception makes the iteration a no-op), and the detector's message over any
ticker list containing it equals the message over the list with that ticker
removed — one failing fetch never aborts the run and never raises out of the
detector. -/
theorem fetch_error_skips_ticker
    (fetchClose : Nat → String → Except Unit (List ℚ)) (pre post : List String)
    (ticker : String) (recentPeak recentTrend : Nat) (th : ℚ)
    (hfail : fetchClose recentPeak ticker = .error ()) :
    (processTicker fetchClose recentPeak recentTrend th ticker).2 = .ok "" ∧
    (create_ticker_message fetchClose (pre ++ ticker :: post) recentPeak recentTrend th).2 =
      (create_ticker_message fetchClose (pre ++ post) recentPeak recentTrend th).2 := by
  have hskip : (processTicker fetchClose recentPeak recentTrend th ticker).2 = .ok "" := by
    simp only [processTicker, hfail]
  exact ⟨hskip,
    create_ticker_message_go_skip fetchClose recentPeak recentTrend th ticker hskip post pre ""⟩

/-- Witness for C4: the fetch for `"BAD"` raises, and the detector's result
on `["A", "BAD", "C"]` equals its result on `["A", "C"]`. -/
theorem fetch_error_skips_ticker_witness :
    (processTicker (fun _ t => if t = "BAD" then .error () else .ok [100, 80, 50])
        5 1 10 "BAD").2 = .ok "" ∧
    (create_ticker_message (fun _ t => if t = "BAD" then .error () else .ok [100, 80, 50])
        ["A", "BAD", "C"] 5 1 10).2 =
      (create_ticker_message (fun _ t => if t = "BAD" then .error () else .ok [100, 80, 50])
        ["A", "C"] 5 1 10).2 :=
  fetch_error_skips_ticker (fun _ t => if t = "BAD" then .error () else .ok [100, 80, 50])
    ["A"] ["C"] "BAD" 5 1 10 (by decide)

/-- C5 (the code, not the claim): a fetched history with fewer than
`recentTrend` entries is NOT treated as a fetch error.  The index
`history.Close[-recentTrend]` on source line 100 sits outside the
`try`/`except`, so the resulting `IndexError` escapes `create_ticker_message`
and `main`, aborting the whole run: with one closing price and
`recentTrend = 2` the detector raises after the fetch, and the interpreter
exits with status 1. -/
theorem short_history_uncaught_index_error :
    create_ticker_message (fun _ _ => .ok [100]) ["TICKER"] 7 2 10 =
      ([Event.fetchHistory "TICKER"], .error PyExc.indexError) ∧
    main envShortHistory = ([Event.fetchHistory "TICKER"], .error PyExc.indexError) ∧
    scriptExitCode envShortHistory = 1 :=
  ⟨by decide, by decide, by decide⟩

/-- C6: `send_message` reports success exactly when the POST completed with
HTTP status 200; a raised transport exception or any other status yields
`false` (and the model is a total function: nothing propagates). -/
theorem send_message_true_iff_status_200
    (transport : Except Unit Nat) (botID chatID message : String) :
    (send_message transport botID chatID message).2 = true ↔ transport = .ok OK := by
  cases transport with
  | ok code =>
    simp only [send_message]
    by_cases h : code = OK
    · subst h; simp
    · simp [h]
  | error e => simp [send_message]

/-- C7 (the code, not the claim): the top level of the script discards
`main`'s return value, so the process exit code is 0 whenever `main` returns,
including every fatal condition that `main` signals by returning `-1`; and a
config invariant violation raises an uncaught `AssertionError`, making the
interpreter exit 1, not -1.  Concretely: (a) a config load failure makes
`main` return `-1` yet the process exits 0; (b) `recentPeak < recentTrend`
exits 1; (c) an empty detector message with a failing liveness probe makes
`main` return `-1` after exactly one notification attempt, yet the process
exits 0; (d) an empty detector message with a successful probe returns 0 with
no notification attempt and the process exits 0. -/
theorem process_exit_code_is_not_main_return :
    (main envLoadFail).2 = .ok (-1) ∧
    scriptExitCode envLoadFail = 0 ∧
    scriptExitCode envInvariant = 1 ∧
    main envProbeFail = ([Event.probe, Event.post], .ok (-1)) ∧
    scriptExitCode envProbeFail = 0 ∧
    main envProbeOk = ([Event.probe], .ok 0) ∧
    scriptExitCode envProbeOk = 0 :=
  ⟨by decide, by decide, by decide, by decide, by decide, by decide, by decide⟩

/-- C8: once the loaded configuration violates `recentPeak ≥ recentTrend`,
the run performs no network activity at all — no history fetch, no liveness
probe, no POST — and aborts (either through the uncaught `AssertionError`, or
already through a logging-setup failure that precedes the check). -/
theorem invariant_violation_aborts_before_network
    (env : Env) (config : Config)
    (hload : env.configLoad = .ok config)
    (hinv : config.recentPeak < config.recentTrend) :
    (main env).1 = [] ∧
      ((main env).2 = .error PyExc.assertionError ∨ (main env).2 = .ok (-1)) := by
  simp only [main, hload]
  cases hls : (if config.loggingEnabled then env.loggingSetup else Except.ok ()) with
  | error e => exact ⟨rfl, Or.inr rfl⟩
  | ok u =>
    rw [if_pos hinv]
    exact ⟨rfl, Or.inl rfl⟩

/-- Witness for C8: a concrete environment with `recentPeak = 1 <
recentTrend = 2` and live oracles for every collaborator. -/
theorem invariant_violation_aborts_before_network_witness :
    (main envInvariant).1 = [] ∧
      ((main envInvariant).2 = .error PyExc.assertionError ∨
        (main envInvariant).2 = .ok (-1)) :=
  invariant_violation_aborts_before_network envInvariant cfgInvariant rfl (by decide)

/-- C9: the detector's return value is the concatenation of the per-ticker
contributions in ticker input order (non-qualifying tickers contribute the
empty string), and for an empty ticker list it is the empty string with no
network activity. -/
theorem detector_output_is_ordered_concatenation :
    (∀ (fetchClose : Nat → String → Except Unit (List ℚ)) (recentPeak recentTrend : Nat)
      (th : ℚ), create_ticker_message fetchClose [] recentPeak recentTrend th = ([], .ok "")) ∧
    (∀ (fetchClose : Nat → String → Except Unit (List ℚ)) (recentPeak recentTrend : Nat)
      (th : ℚ) (tickers : List String) (c : String → String),
      (∀ t ∈ tickers, (processTicker fetchClose recentPeak recentTrend th t).2 = .ok (c t)) →
      (create_ticker_message fetchClose tickers recentPeak recentTrend th).2 =
        .ok (concatAll (tickers.map c))) := by
  refine ⟨fun _ _ _ _ => rfl, ?_⟩
  intro fetchClose recentPeak recentTrend th tickers c h
  exact create_ticker_message_go_concat fetchClose recentPeak recentTrend th c tickers h

/-- Witness for C9: two tickers whose fetches both raise contribute two empty
strings, concatenated in order. -/
theorem detector_output_is_ordered_concatenation_witness :
    (create_ticker_message (fun _ _ => Except.error ()) ["A", "B"] 3 1 10).2 =
      .ok (concatAll (["A", "B"].map fun _ => "")) :=
  detector_output_is_ordered_concatenation.2 (fun _ _ => Except.error ()) 3 1 10 ["A", "B"]
    (fun _ => "") (by decide)

/-- C10: with `recentTrend = 1` the trend gate compares the most recent close
with itself, which is never strictly smaller, so a ticker with a non-empty
fetched history is never skipped by the gate: the drawdown threshold alone
decides whether its line is appended. -/
theorem recentTrend_one_never_gated
    (fetchClose : Nat → String → Except Unit (List ℚ)) (recentPeak : Nat) (th : ℚ)
    (ticker : String) (close : List ℚ) (hne : close ≠ [])
    (hfetch : fetchClose recentPeak ticker = .ok close) :
    (processTicker fetchClose recentPeak 1 th ticker).2 =
      .ok (if (close.getLast hne - maxLoop close) / maxLoop close * 100 < -th then
            ticker ++ " dropped " ++
              formatRound2 (-((close.getLast hne - maxLoop close) / maxLoop close * 100)) ++ "%\n"
          else "") := by
  have hidx1 : pyIndex close (-((1 : Nat) : Int)) = some (close.getLast hne) := by
    simpa using pyIndex_neg_one close hne
  have hidx2 : pyIndex close TODAY = some (close.getLast hne) :=
    pyIndex_neg_one close hne
  simp only [processTicker, hfetch, hidx1, hidx2]
  rw [if_neg (lt_irrefl _)]
  split <;> rfl

/-- Witness for C10: the history `[100, 80]` with `recentTrend = 1` reaches
the drawdown decision. -/
theorem recentTrend_one_never_gated_witness :
    (processTicker (fun _ _ => .ok [100, 80]) 7 1 15 "T").2 =
      .ok (if (([100, 80] : List ℚ).getLast (by decide) - maxLoop [100, 80]) /
              maxLoop [100, 80] * 100 < -15 then
            "T" ++ " dropped " ++
              formatRound2 (-((([100, 80] : List ℚ).getLast (by decide) - maxLoop [100, 80]) /
                maxLoop [100, 80] * 100)) ++ "%\n"
          else "") :=
  recentTrend_one_never_gated (fun _ _ => .ok [100, 80]) 7 15 "T" [100, 80]
    (by decide) rfl

end StonkAlerts
